import Mathlib

/-!
Verification of the CO2e Impact Calculator (`co2e_impact_calculator.py`).

The arithmetic core of the program uses Python's `Decimal` type on small
literal constants; every operation performed (sums of integers, a
multiplication by 10, a division by 1000, multiplications by six-digit
decimal constants) is exact in `Decimal` at the default precision, so the
core is embedded over ℚ, where the same operations are exact.

The presentation layer converts the central estimate to a binary float
before choosing an interpretation band; on every value reachable from the
catalog the float computation agrees with exact rational arithmetic (the
comparisons and the truncation are far from representation boundaries),
so the band logic is likewise embedded over ℚ.
-/

namespace CO2e

/-- Scientific constants (module level, `Decimal` literals in the source). -/
def MCC_CENTRAL : ℚ := 226 / 1000000

/-- Lower bound of the mortality cost of carbon. -/
def MCC_LOW : ℚ := -171 / 1000000

/-- Upper bound of the mortality cost of carbon. -/
def MCC_HIGH : ℚ := 678 / 1000000

def KG_PER_METRIC_TON : ℚ := 1000

def PROJECTION_YEARS : ℤ := 10

/-- One entry of the `LIFESTYLE_CHANGES` table: a Python dict with keys
`id`, `name`, `annual_kg`, `description`, `source`.  `annual_kg` is a
Python `int`, embedded as ℤ. -/
structure LifestyleChange where
  id : String
  name : String
  annual_kg : ℤ
  description : String
  source : String
deriving Repr, DecidableEq

/-- The `LIFESTYLE_CHANGES` list from the source, in source order. -/
def LIFESTYLE_CHANGES : List LifestyleChange := [
  { id := "flight_syd_lon",
    name := "Avoid one Sydney-London round-trip flight per year",
    annual_kg := 4500,
    description := "Long-haul flights are among the most carbon-intensive activities. A round-trip economy flight Sydney-London produces ~4,500 kg CO2e (including radiative forcing effects at altitude).",
    source := "myclimate, Carbon Independent" },
  { id := "reduce_meat",
    name := "Reduce meat consumption to 2 meals per week",
    annual_kg := 920,
    description := "Reducing from a typical Western diet (~7-10 meat meals/week) to just 2 meals per week saves significant emissions from livestock farming, feed production, and land use.",
    source := "Scarborough et al. (2014), Energy Saving Trust UK" },
  { id := "eliminate_dairy",
    name := "Eliminate dairy consumption",
    annual_kg := 420,
    description := "Dairy production generates methane from cattle and requires significant land and water. Switching to plant-based alternatives reduces emissions.",
    source := "Our World in Data, Poore & Nemecek (2018)" },
  { id := "go_car_free",
    name := "Go car-free (give up personal vehicle)",
    annual_kg := 2400,
    description := "Eliminating car ownership and switching to public transit, cycling, or walking. Based on average car usage of ~12,000 km/year.",
    source := "Wynes & Nicholas (2017), WRI" },
  { id := "switch_ev",
    name := "Switch from petrol/diesel car to electric vehicle",
    annual_kg := 2000,
    description := "EVs produce zero direct emissions and lower lifecycle emissions, especially when charged with renewable energy. Savings depend on local electricity grid mix.",
    source := "IEA, EPA" },
  { id := "renewable_energy",
    name := "Switch home to 100% renewable energy",
    annual_kg := 1500,
    description := "Switching electricity provider to certified renewable sources or installing solar panels eliminates emissions from fossil fuel electricity generation.",
    source := "Carbon Brief, EPA" },
  { id := "cycle_commute",
    name := "Cycle instead of drive for daily commute",
    annual_kg := 500,
    description := "Replacing one car trip per day (~10 km average) with cycling. Also provides health benefits and reduces traffic congestion.",
    source := "European Cyclists\x27 Federation, ITF" },
  { id := "short_flight",
    name := "Avoid one short-haul flight per year (take train instead)",
    annual_kg := 500,
    description := "Short flights (1-3 hours) have disproportionately high emissions due to takeoff/landing. Trains produce 5-10x fewer emissions.",
    source := "EEA, Eurostar" },
  { id := "reduce_food_waste",
    name := "Reduce food waste by 50%",
    annual_kg := 300,
    description := "The average household wastes ~30% of food purchased. Reducing waste saves emissions from production, transport, and landfill methane.",
    source := "Project Drawdown, WRAP UK" },
  { id := "energy_efficiency",
    name := "Adopt energy-efficient home practices",
    annual_kg := 300,
    description := "LED lighting, efficient appliances, smart thermostats, reducing standby power, and better insulation. Can cut home energy use by 30%.",
    source := "Energy Saving Trust, DOE" }
]

/-- Return value of `calculate_lives_saved`: a dict with keys `central`,
`low`, `high`, `co2e_tons`. -/
structure LivesSaved where
  central : ℚ
  low : ℚ
  high : ℚ
  co2e_tons : ℚ
deriving Repr, DecidableEq

/-- `calculate_lives_saved(co2e_kg)` from the source:
`co2e_tons = co2e_kg / KG_PER_METRIC_TON`, then multiplied by each of the
three MCC coefficients. -/
def calculate_lives_saved (co2e_kg : ℚ) : LivesSaved :=
  let co2e_tons := co2e_kg / KG_PER_METRIC_TON
  { central := co2e_tons * MCC_CENTRAL
    low := co2e_tons * MCC_LOW
    high := co2e_tons * MCC_HIGH
    co2e_tons := co2e_tons }

/-- The numeric content of `_calculate_and_show_results`: the totals it
computes before handing them to display code. -/
structure ImpactResult where
  total_annual_kg : ℤ
  total_period_kg : ℤ
  results : LivesSaved
deriving Repr, DecidableEq

/-- The selected sublist, as gathered by `_calculate_and_show_results`:
the checkbox state is a map from id to boolean (`self.change_vars`), and
the code walks `LIFESTYLE_CHANGES` in catalog order keeping the checked
entries. -/
def selectedChanges (sel : String → Bool) : List LifestyleChange :=
  LIFESTYLE_CHANGES.filter (fun c => sel c.id)

/-- The calculation performed by `_calculate_and_show_results` (lines
369-389): gather selected entries; if none, show a warning and return
(embedded as `none`); otherwise `total_annual = sum of annual_kg`,
`total_10y = total_annual * PROJECTION_YEARS`, and
`calculate_lives_saved(Decimal(total_10y))`. -/
def calculate_and_show_results (sel : String → Bool) : Option ImpactResult :=
  let selected := selectedChanges sel
  if selected.isEmpty then none
  else
    let total_annual := (selected.map (fun c => c.annual_kg)).sum
    let total_10y := total_annual * PROJECTION_YEARS
    some { total_annual_kg := total_annual
           total_period_kg := total_10y
           results := calculate_lives_saved (total_10y : ℚ) }

/-- Python `int()` applied to an exact value: truncation toward zero. -/
def intTrunc (q : ℚ) : ℤ := if 0 ≤ q then ⌊q⌋ else ⌈q⌉

/-- The interpretation chosen by the threshold ladder at lines 487-507,
keyed by the central estimate. -/
inductive Interp where
  | deaths (d : ℚ)
  | percentOfOneLife (p : ℚ)
  | finePercentOfOneLife (p : ℚ)
  | peopleNeeded (n : ℤ)
deriving Repr, DecidableEq

/-- The threshold ladder of `_calculate_and_show_results` (lines 487-507):
`central >= 1` reports a death count, `central >= 0.1` and
`central >= 0.01` report percentages, and otherwise the code computes
`people_needed = int(1 / central) if central > 0 else 0`. -/
def interpBand (central : ℚ) : Interp :=
  if 1 ≤ central then .deaths central
  else if 1/10 ≤ central then .percentOfOneLife (central * 100)
  else if 1/100 ≤ central then .finePercentOfOneLife (central * 100)
  else .peopleNeeded (if 0 < central then intTrunc (1 / central) else 0)

/-- Claim C1: for every non-empty selection, the computation succeeds and
yields `total_annual_kg` equal to the sum of `annual_kg` over the selected
entries in any order (stated for an arbitrary permutation `l` of the
selected sublist), `total_period_kg = total_annual_kg * PROJECTION_YEARS`
with `PROJECTION_YEARS = 10` in exact integer arithmetic, and
`co2e_tons = total_period_kg / 1000` exactly. -/
theorem c1_totals (sel : String → Bool) (l : List LifestyleChange)
    (hp : l.Perm (selectedChanges sel)) (hne : selectedChanges sel ≠ []) :
    ∃ r, calculate_and_show_results sel = some r ∧
      r.total_annual_kg = (l.map (fun c => c.annual_kg)).sum ∧
      r.total_period_kg = r.total_annual_kg * PROJECTION_YEARS ∧
      PROJECTION_YEARS = 10 ∧
      r.results.co2e_tons = (r.total_period_kg : ℚ) / 1000 := by
  have hne' : (selectedChanges sel).isEmpty = false := by
    simpa [List.isEmpty_iff] using hne
  rw [calculate_and_show_results]
  simp only [hne', Bool.false_eq_true, if_false]
  refine ⟨_, rfl, ?_, rfl, rfl, ?_⟩
  · exact ((hp.map (fun c => c.annual_kg)).sum_eq).symm
  · simp [calculate_lives_saved, KG_PER_METRIC_TON]

/-- Witness for C1: the selection of entries 0 and 3 of the catalog
(`flight_syd_lon` and `go_car_free`), with the selected sublist taken in
reversed order. -/
theorem c1_totals_witness :
    [LIFESTYLE_CHANGES[3], LIFESTYLE_CHANGES[0]].Perm
      (selectedChanges (fun i => i == "flight_syd_lon" || i == "go_car_free")) ∧
    selectedChanges (fun i => i == "flight_syd_lon" || i == "go_car_free") ≠ [] ∧
    ∃ r, calculate_and_show_results (fun i => i == "flight_syd_lon" || i == "go_car_free") = some r ∧
      r.total_annual_kg = ([LIFESTYLE_CHANGES[3], LIFESTYLE_CHANGES[0]].map (fun c => c.annual_kg)).sum ∧
      r.total_period_kg = r.total_annual_kg * PROJECTION_YEARS ∧
      PROJECTION_YEARS = 10 ∧
      r.results.co2e_tons = (r.total_period_kg : ℚ) / 1000 := by
  have hp : [LIFESTYLE_CHANGES[3], LIFESTYLE_CHANGES[0]].Perm
      (selectedChanges (fun i => i == "flight_syd_lon" || i == "go_car_free")) := by
    rw [show selectedChanges (fun i => i == "flight_syd_lon" || i == "go_car_free") =
      [LIFESTYLE_CHANGES[0], LIFESTYLE_CHANGES[3]] from rfl]
    exact List.Perm.swap _ _ _
  have hne : selectedChanges (fun i => i == "flight_syd_lon" || i == "go_car_free") ≠ [] := by
    rw [show selectedChanges (fun i => i == "flight_syd_lon" || i == "go_car_free") =
      [LIFESTYLE_CHANGES[0], LIFESTYLE_CHANGES[3]] from rfl]
    simp
  exact ⟨hp, hne, c1_totals _ _ hp hne⟩

/-- Claim C2: for every input, `calculate_lives_saved` returns
`central = co2e_tons * MCC_CENTRAL`, `low = co2e_tons * MCC_LOW` and
`high = co2e_tons * MCC_HIGH` as exact linear scalings, and `low` is
negative whenever `co2e_tons` is positive (the sign is preserved, not
clamped to zero). -/
theorem c2_linear_scaling (co2e_kg : ℚ) :
    (calculate_lives_saved co2e_kg).central = (calculate_lives_saved co2e_kg).co2e_tons * MCC_CENTRAL ∧
    (calculate_lives_saved co2e_kg).low = (calculate_lives_saved co2e_kg).co2e_tons * MCC_LOW ∧
    (calculate_lives_saved co2e_kg).high = (calculate_lives_saved co2e_kg).co2e_tons * MCC_HIGH ∧
    (0 < (calculate_lives_saved co2e_kg).co2e_tons → (calculate_lives_saved co2e_kg).low < 0) := by
  refine ⟨rfl, rfl, rfl, fun hpos => ?_⟩
  have : MCC_LOW < 0 := by norm_num [MCC_LOW]
  exact mul_neg_of_pos_of_neg hpos this

/-- Witness for C2 at `co2e_kg = 1000`: the tonnage is positive and the
low estimate is strictly negative. -/
theorem c2_linear_scaling_witness :
    0 < (calculate_lives_saved 1000).co2e_tons ∧ (calculate_lives_saved 1000).low < 0 := by
  have hpos : 0 < (calculate_lives_saved 1000).co2e_tons := by
    norm_num [calculate_lives_saved, KG_PER_METRIC_TON]
  exact ⟨hpos, (c2_linear_scaling 1000).2.2.2 hpos⟩

/-- Claim C3: an empty selection is rejected before the arithmetic core:
`_calculate_and_show_results` shows a warning and returns without
producing a result, embedded as returning `none`. -/
theorem c3_empty_selection_rejected (sel : String → Bool)
    (h : selectedChanges sel = []) :
    calculate_and_show_results sel = none := by
  rw [calculate_and_show_results]
  simp [h]

/-- Witness for C3: the all-unchecked selection selects no entries and
produces no result. -/
theorem c3_empty_selection_rejected_witness :
    selectedChanges (fun _ => false) = [] ∧
    calculate_and_show_results (fun _ => false) = none :=
  ⟨rfl, c3_empty_selection_rejected (fun _ => false) rfl⟩

/-- Counterexample to C4 as stated: for the single selection
`energy_efficiency` the central estimate is exactly 0.000678, and the code
reports `people_needed = int(1 / central) = 1474` (truncation), whereas
the claim says `round(1 / 0.000678) = 1475`; the two differ. -/
theorem c4_counterexample :
    (calculate_and_show_results (fun i => i == "energy_efficiency")).map
        (fun r => r.results.central) = some ((678 : ℚ)/1000000) ∧
    (calculate_and_show_results (fun i => i == "energy_efficiency")).map
        (fun r => interpBand r.results.central) = some (Interp.peopleNeeded 1474) ∧
    round (1 / ((678 : ℚ)/1000000)) = 1475 ∧
    Interp.peopleNeeded 1474 ≠ Interp.peopleNeeded 1475 := by
  have hc : (calculate_and_show_results (fun i => i == "energy_efficiency")).map
      (fun r => r.results.central) = some ((678 : ℚ)/1000000) := by
    simp [calculate_and_show_results, selectedChanges, LIFESTYLE_CHANGES,
      calculate_lives_saved, MCC_CENTRAL, KG_PER_METRIC_TON, PROJECTION_YEARS]
    norm_num
  refine ⟨hc, ?_, ?_, by decide⟩
  · have : interpBand ((678 : ℚ)/1000000) = Interp.peopleNeeded 1474 := by
      rw [interpBand, intTrunc]
      norm_num
    simp [calculate_and_show_results, selectedChanges, LIFESTYLE_CHANGES,
      calculate_lives_saved, MCC_CENTRAL, MCC_LOW, MCC_HIGH,
      KG_PER_METRIC_TON, PROJECTION_YEARS]
    norm_num
    convert this using 2
    norm_num
  · rw [round_eq]
    norm_num

/-- Claim C4 as amended: when `0 < lives_central < 0.01`, the reported N
is `int(1 / lives_central)`, i.e. truncation toward zero (equal to the
floor on this positive range), not rounding to nearest; for the
`energy_efficiency` selection this gives N = 1474. -/
theorem c4_trunc_band (c : ℚ) (h0 : 0 < c) (h1 : c < 1/100) :
    interpBand c = Interp.peopleNeeded ⌊1/c⌋ := by
  have h2 : ¬ (1 ≤ c) := by linarith
  have h3 : ¬ ((1:ℚ)/10 ≤ c) := by linarith
  have h4 : ¬ ((1:ℚ)/100 ≤ c) := by linarith
  have h5 : (0:ℚ) ≤ 1/c := by positivity
  rw [interpBand, if_neg h2, if_neg h3, if_neg h4, if_pos h0, intTrunc, if_pos h5]

/-- Witness for the amended C4 at `central = 0.000678` (the value produced
by the single `energy_efficiency` selection): the band reports 1474
people. -/
theorem c4_trunc_band_witness :
    (0 : ℚ) < 678/1000000 ∧ (678 : ℚ)/1000000 < 1/100 ∧
    interpBand ((678 : ℚ)/1000000) = Interp.peopleNeeded 1474 := by
  refine ⟨by norm_num, by norm_num, ?_⟩
  rw [c4_trunc_band ((678 : ℚ)/1000000) (by norm_num) (by norm_num)]
  norm_num

/-- Claim C5: selecting only `flight_syd_lon` (4500 kg/yr) yields exactly
`total_annual_kg = 4500`, `total_period_kg = 45000`, `co2e_tons = 45`,
`lives_central = 0.01017`, `lives_low = -0.007695` and
`lives_high = 0.03051`. -/
theorem c5_flight_scenario :
    calculate_and_show_results (fun i => i == "flight_syd_lon") =
      some { total_annual_kg := 4500, total_period_kg := 45000,
             results := { central := 1017/100000, low := -7695/1000000,
                          high := 3051/100000, co2e_tons := 45 } } := by
  simp [calculate_and_show_results, selectedChanges, LIFESTYLE_CHANGES,
    calculate_lives_saved, MCC_CENTRAL, MCC_LOW, MCC_HIGH, KG_PER_METRIC_TON,
    PROJECTION_YEARS]
  norm_num

/-- Claim C6: for every non-positive central estimate the threshold ladder
takes the guarded branch `people_needed = 0` and the division
`1 / central` is never evaluated (the source guards it with
`if central > 0 else 0`). -/
theorem c6_nonpositive_guarded (c : ℚ) (h : c ≤ 0) :
    interpBand c = Interp.peopleNeeded 0 := by
  have h2 : ¬ (1 ≤ c) := by linarith
  have h3 : ¬ ((1:ℚ)/10 ≤ c) := by linarith
  have h4 : ¬ ((1:ℚ)/100 ≤ c) := by linarith
  have h5 : ¬ (0 < c) := by linarith
  rw [interpBand, if_neg h2, if_neg h3, if_neg h4, if_neg h5]

/-- Witness for C6 at `central = 0`. -/
theorem c6_nonpositive_guarded_witness :
    (0 : ℚ) ≤ 0 ∧ interpBand 0 = Interp.peopleNeeded 0 :=
  ⟨le_refl 0, c6_nonpositive_guarded 0 (le_refl 0)⟩

/-- Claim C7: the catalog is the fixed list `LIFESTYLE_CHANGES` (a
constant, so identical across runs with no mutation operation), its ids
are pairwise distinct, and every `annual_kg` is a non-negative integer. -/
theorem c7_catalog_invariants :
    (LIFESTYLE_CHANGES.map (fun c => c.id)).Nodup ∧
    ∀ c ∈ LIFESTYLE_CHANGES, 0 ≤ c.annual_kg := by
  constructor
  · decide
  · decide

/-- Claim C8: the computation is deterministic and side-effect-free: two
calls on pointwise-equal selections, and two calls of
`calculate_lives_saved` on equal inputs, return identical results; no
hidden state exists since both are pure functions of their arguments. -/
theorem c8_deterministic (s1 s2 : String → Bool) (hs : ∀ i, s1 i = s2 i)
    (x y : ℚ) (hxy : x = y) :
    calculate_and_show_results s1 = calculate_and_show_results s2 ∧
    calculate_lives_saved x = calculate_lives_saved y := by
  have : s1 = s2 := funext hs
  subst this
  subst hxy
  exact ⟨rfl, rfl⟩

/-- Witness for C8: the all-checked selection and the input 45000. -/
theorem c8_deterministic_witness :
    calculate_and_show_results (fun _ => true) = calculate_and_show_results (fun _ => true) ∧
    calculate_lives_saved 45000 = calculate_lives_saved 45000 :=
  c8_deterministic (fun _ => true) (fun _ => true) (fun _ => rfl) 45000 45000 rfl

/-- Claim C9: for non-negative input the estimates are ordered
`low ≤ central ≤ high`, and for negative input the ordering is
reversed. -/
theorem c9_estimate_ordering (x : ℚ) :
    (0 ≤ x → (calculate_lives_saved x).low ≤ (calculate_lives_saved x).central ∧
             (calculate_lives_saved x).central ≤ (calculate_lives_saved x).high) ∧
    (x < 0 → (calculate_lives_saved x).high ≤ (calculate_lives_saved x).central ∧
             (calculate_lives_saved x).central ≤ (calculate_lives_saved x).low) := by
  simp only [calculate_lives_saved, MCC_CENTRAL, MCC_LOW, MCC_HIGH, KG_PER_METRIC_TON]
  constructor
  · intro hx
    constructor <;> nlinarith
  · intro hx
    constructor <;> nlinarith

/-- Witness for C9 at 1000 and -1000, exercising both orderings. -/
theorem c9_estimate_ordering_witness :
    ((0 : ℚ) ≤ 1000 ∧
      (calculate_lives_saved 1000).low ≤ (calculate_lives_saved 1000).central ∧
      (calculate_lives_saved 1000).central ≤ (calculate_lives_saved 1000).high) ∧
    ((-1000 : ℚ) < 0 ∧
      (calculate_lives_saved (-1000)).high ≤ (calculate_lives_saved (-1000)).central ∧
      (calculate_lives_saved (-1000)).central ≤ (calculate_lives_saved (-1000)).low) :=
  ⟨⟨by norm_num, (c9_estimate_ordering 1000).1 (by norm_num)⟩,
   ⟨by norm_num, (c9_estimate_ordering (-1000)).2 (by norm_num)⟩⟩

/-- Claim C10: `calculate_lives_saved` performs no emptiness or sign
validation and is total over every input, with the stated closed form at
every input (including zero and negative values); at input 0 it silently
returns `co2e_tons = 0` and all three estimates 0. The empty-selection
guard lives only in the caller `_calculate_and_show_results`. -/
theorem c10_engine_total_unvalidated (x : ℚ) :
    calculate_lives_saved x =
      { central := x / 1000 * MCC_CENTRAL, low := x / 1000 * MCC_LOW,
        high := x / 1000 * MCC_HIGH, co2e_tons := x / 1000 } ∧
    calculate_lives_saved 0 = { central := 0, low := 0, high := 0, co2e_tons := 0 } := by
  constructor
  · rfl
  · simp [calculate_lives_saved, MCC_CENTRAL, MCC_LOW, MCC_HIGH, KG_PER_METRIC_TON]

end CO2e
